import Mathlib

/-!
Shallow embedding of the tk-clarisse engine sources (engine.py and
python/tk_clarisse/pyside_clarisse.py): the scene-event watcher, the
`wrapped` decorator, the `refresh_engine` context refresher, the
startup-command dispatch `_run_app_instance_commands`, and the Qt event
pump bridge `PySideAppClarisseHelper`.
-/

namespace TkClarisse

/-- Host entry-point function values (attributes of `ix.application`).
A `base` function is an original host function, identified by a numeric
id; `wrap` is the closure produced by `wrapped` (engine.py lines
96-113): it stores the function it wraps (exposed as the `_original`
attribute, line 112) and whether it was built with the quit
pre-callback (`isQuit = true`) or with the scene-event post-callback
(`isQuit = false`), which are the only two configurations
`start_watching` uses. -/
inductive Fn where
  | base (id : Nat)
  | wrap (orig : Fn) (isQuit : Bool)
deriving DecidableEq, Repr

/-- The `_original` attribute that `wrapped` sets on the wrapper
(engine.py line 112).  Only wrappers are ever stored in
`__wrapped_fns`, so the `base` case is unreachable in practice. -/
def Fn.original : Fn → Fn
  | .base i => .base i
  | .wrap o _ => o

/-- Wrapper nesting depth: a host original has depth 0 and each
application of `wrapped` adds one layer. -/
def Fn.depth : Fn → Nat
  | .base _ => 0
  | .wrap o _ => o.depth + 1

/-- The attribute table of the `ix.application` object restricted to
the entry points the watcher touches: `getattr` is association-list
lookup, with a missing key (an `AttributeError`) modelled as `none`. -/
abbrev Attrs := List (String × Fn)

/-- Python `getattr(ix.application, n)`: `none` models the
`AttributeError` raised when the host does not expose the attribute. -/
def getAttr (h : Attrs) (n : String) : Option Fn := h.lookup n

/-- Python `setattr(ix.application, n, f)` (and a dict store
`d[n] = f`): replace the binding when the key is present, create it
otherwise. -/
def setAttr (h : Attrs) (n : String) (f : Fn) : Attrs :=
  if (h.lookup n).isSome then
    h.map (fun p => if p.1 = n then (n, f) else p)
  else h ++ [(n, f)]

/-- `SCENE_EVENT_NAMES` (engine.py lines 116-123). -/
def SCENE_EVENT_NAMES : List String :=
  ["new_project", "clear_project", "import_project",
   "load_project", "save_project", "load_startup_scene"]

/-- `SCENE_QUIT_EVENT_NAME` (engine.py line 125). -/
def SCENE_QUIT_EVENT_NAME : String := "quit"

/-- State of one `SceneEventWatcher` together with the host attribute
table it patches.  `wrapped_fns` is the watcher's `__wrapped_fns` dict.
`cbRecords` logs, for each invocation of the user callback `__cb_fn`
(engine.py line 206), the number of entries still present in
`__wrapped_fns` at the moment the callback runs; the callback itself is
external to the watcher. -/
structure WState where
  host : Attrs
  wrapped_fns : Attrs
  run_once : Bool
  cbRecords : List Nat
deriving DecidableEq, Repr

/-- `SceneEventWatcher.stop_watching` (engine.py lines 191-197):
restore every patched attribute to the stored wrapper's `_original`,
then clear `__wrapped_fns`. -/
def stop_watching (s : WState) : WState :=
  { s with
    host := s.wrapped_fns.foldl (fun h p => setAttr h p.1 p.2.original) s.host
    wrapped_fns := [] }

/-- One iteration of the registration loop body (engine.py lines
165-178): `getattr`, wrap with the scene-event post-callback, store in
`__wrapped_fns`, `setattr`; the `except Exception: continue` makes a
missing attribute skip just this registration. -/
def registerScene (st : WState) (name : String) : WState :=
  match getAttr st.host name with
  | none => st
  | some fn =>
    let w := Fn.wrap fn false
    { st with
        wrapped_fns := setAttr st.wrapped_fns name w
        host := setAttr st.host name w }

/-- The quit registration of `start_watching` (engine.py lines
182-189): `getattr`, wrap with the exit pre-callback, store, `setattr`.
It sits after the loop and outside any `try`, so a missing quit
attribute makes the whole call raise (`Except.error`). -/
def registerQuit (s2 : WState) : Except Unit WState :=
  match getAttr s2.host SCENE_QUIT_EVENT_NAME with
  | none => Except.error ()
  | some fn =>
    let w := Fn.wrap fn true
    Except.ok { s2 with
      wrapped_fns := setAttr s2.wrapped_fns SCENE_QUIT_EVENT_NAME w
      host := setAttr s2.host SCENE_QUIT_EVENT_NAME w }

/-- The registration part of `start_watching` (engine.py lines
163-189): the guarded loop over `SCENE_EVENT_NAMES`, then the quit
registration. -/
def registerAll (s1 : WState) : Except Unit WState :=
  registerQuit (SCENE_EVENT_NAMES.foldl registerScene s1)

/-- `SceneEventWatcher.start_watching` (engine.py lines 156-189): first
`stop_watching` (line 161), then register every watched entry point. -/
def start_watching (s : WState) : Except Unit WState :=
  registerAll (stop_watching s)

/-- `SceneEventWatcher.__init__` (engine.py lines 139-154): record the
flag and the empty `__wrapped_fns`, then immediately `start_watching`. -/
def mkWatcher (host : Attrs) (run_once : Bool) : Except Unit WState :=
  start_watching
    { host := host, wrapped_fns := [], run_once := run_once, cbRecords := [] }

/-- `SceneEventWatcher.__scene_event_callback` (engine.py lines
199-206): when `run_once` is set the watcher stops itself first, then
the user callback `__cb_fn` runs (we record how many entries are still
patched at that moment). -/
def scene_event_callback (s : WState) : WState :=
  let s1 := if s.run_once then stop_watching s else s
  { s1 with cbRecords := s1.cbRecords ++ [s1.wrapped_fns.length] }

/-- `SceneEventWatcher.__clarisse_exiting_callback` (engine.py lines
208-213): stop the watcher before Clarisse tears down. -/
def clarisse_exiting_callback (s : WState) : WState :=
  stop_watching s

/-- Calling a host function value.  A `base` function is external host
code and does not touch the watcher.  A wrapper runs, per the body of
`wrapped` (engine.py lines 98-108): the pre-callback (quit
configuration) before the stored original, or the stored original
followed by the post-callback (scene-event configuration). -/
def callFn (s : WState) : Fn → WState
  | .base _ => s
  | .wrap orig isQuit =>
    if isQuit then
      callFn (clarisse_exiting_callback s) orig
    else
      scene_event_callback (callFn s orig)

/-- The host fires lifecycle event `n`: it invokes whatever function is
currently bound to that attribute, if any. -/
def fireEvent (s : WState) (n : String) : WState :=
  match getAttr s.host n with
  | none => s
  | some f => callFn s f

/-- A sequence of host lifecycle events. -/
def fireEvents (s : WState) : List String → WState :=
  List.foldl fireEvent s

/-- A client-visible watcher operation. -/
inductive WOp where
  | startW
  | stopW
deriving DecidableEq, Repr

/-- Apply one watcher operation. -/
def applyOp (s : WState) : WOp → Except Unit WState
  | .startW => start_watching s
  | .stopW => Except.ok (stop_watching s)

/-- Apply a sequence of watcher operations, propagating any raise. -/
def runOps (s : WState) : List WOp → Except Unit WState
  | [] => Except.ok s
  | op :: rest => (applyOp s op).bind (fun s2 => runOps s2 rest)

/-- A host exposing every watched entry point, each bound to its
original function `Fn.base (ids n)`. -/
def cleanHost (ids : String → Nat) : Attrs :=
  (SCENE_EVENT_NAMES ++ [SCENE_QUIT_EVENT_NAME]).map
    (fun n => (n, Fn.base (ids n)))

/-- The same host after one `start_watching`: every scene event is
bound to a post-callback wrapper and quit to a pre-callback wrapper. -/
def watchedHost (ids : String → Nat) : Attrs :=
  SCENE_EVENT_NAMES.map (fun n => (n, Fn.wrap (Fn.base (ids n)) false))
    ++ [(SCENE_QUIT_EVENT_NAME,
         Fn.wrap (Fn.base (ids SCENE_QUIT_EVENT_NAME)) true)]

/-- Watcher state with nothing patched. -/
def cleanSt (ids : String → Nat) (ro : Bool) (rec : List Nat) : WState :=
  { host := cleanHost ids, wrapped_fns := [], run_once := ro, cbRecords := rec }

/-- Watcher state with every entry point patched. -/
def watchSt (ids : String → Nat) (ro : Bool) (rec : List Nat) : WState :=
  { host := watchedHost ids, wrapped_fns := watchedHost ids,
    run_once := ro, cbRecords := rec }

/-- Whether the watcher is patched after `ops`, starting from a state
where it is patched iff `b` (the constructor's implicit
`start_watching` makes the initial `b` true). -/
def endsWatching (b : Bool) : List WOp → Bool
  | [] => b
  | WOp.startW :: rest => endsWatching true rest
  | WOp.stopW :: rest => endsWatching false rest

/-- Intermediate state of the registration loop: the first `k` scene
events are already wrapped, the rest (and quit) still carry their
originals. -/
def stepSt (ids : String → Nat) (ro : Bool) (tr : List Nat) (k : Nat) : WState :=
  { host :=
      (SCENE_EVENT_NAMES.take k).map (fun n => (n, Fn.wrap (Fn.base (ids n)) false))
        ++ (SCENE_EVENT_NAMES.drop k).map (fun n => (n, Fn.base (ids n)))
        ++ [(SCENE_QUIT_EVENT_NAME, Fn.base (ids SCENE_QUIT_EVENT_NAME))]
    wrapped_fns :=
      (SCENE_EVENT_NAMES.take k).map (fun n => (n, Fn.wrap (Fn.base (ids n)) false))
    run_once := ro
    cbRecords := tr }

/-- A host exposing exactly the watched entry points whose name
satisfies `avail`; used for the partial-registration analysis. -/
def hostWithout (ids : String → Nat) (missing : String) : Attrs :=
  ((SCENE_EVENT_NAMES ++ [SCENE_QUIT_EVENT_NAME]).filter
    (fun n => n ≠ missing)).map (fun n => (n, Fn.base (ids n)))

/-- A host exposing the six scene events but not the quit entry point. -/
def hostNoQuit : Attrs :=
  SCENE_EVENT_NAMES.map (fun n => (n, Fn.base 0))

/-- A fired event is relevant to the watcher when it is one of the
watched scene events or the quit event. -/
def relevantEv (n : String) : Bool :=
  SCENE_EVENT_NAMES.contains n || n == SCENE_QUIT_EVENT_NAME

/-! ### The `wrapped` decorator in isolation (engine.py lines 96-113) -/

/-- Calls observable while a wrapper produced by `wrapped` runs. -/
inductive CallEv where
  | preCb
  | origCall (args : List Nat)
  | postCb
deriving DecidableEq, Repr

/-- The body of `wrapper` (engine.py lines 98-110) for a wrapper built
with an optional pre-callback and an optional post-callback: inside the
`try`, run the pre-callback when present, then the captured original on
the given arguments, then the post-callback when present, and return
the original's result; the bare `except: raise` re-raises any exception
unchanged.  `origBeh` gives the captured original's behaviour on each
argument list, with `Except.error e` modelling a raise of `e`; `preBeh`
likewise for the pre-callback (the post-callbacks `start_watching`
installs do not raise).  Returns the trace of calls made and the
wrapper's outcome. -/
def wrapperRun (hasPre hasPost : Bool) (preBeh : Except Nat Unit)
    (origBeh : List Nat → Except Nat Nat) (args : List Nat) :
    List CallEv × Except Nat Nat :=
  if hasPre then
    match preBeh with
    | Except.error e => ([CallEv.preCb], Except.error e)
    | Except.ok _ =>
      match origBeh args with
      | Except.error e =>
        ([CallEv.preCb, CallEv.origCall args], Except.error e)
      | Except.ok v =>
        if hasPost then
          ([CallEv.preCb, CallEv.origCall args, CallEv.postCb], Except.ok v)
        else
          ([CallEv.preCb, CallEv.origCall args], Except.ok v)
  else
    match origBeh args with
    | Except.error e => ([CallEv.origCall args], Except.error e)
    | Except.ok v =>
      if hasPost then
        ([CallEv.origCall args, CallEv.postCb], Except.ok v)
      else
        ([CallEv.origCall args], Except.ok v)

/-! ### The context refresher `refresh_engine` (engine.py lines 221-282) -/

/-- Abstract pipeline context.  Contexts are equality-comparable values
resolved by the external toolkit; only their identity matters here. -/
abbrev Ctx := Nat

/-- The environment `refresh_engine` observes through its external
collaborators: the current engine and its context
(`tank.platform.current_engine()`), the current session file name
(`ix.application.get_current_project_filename()`), the outcome of the
path-based resolution (`tank.tank_from_path` followed by
`context_from_path`, line 250-252; `Except.error` models a raised
`TankError`), the outcome of the fallback resolution
(`context_from_entity_dictionary`, lines 255-257), and the textual
parts of `sys.exc_info()` used to format the diagnostic when the
fallback raises. -/
structure RefreshEnv where
  engine : Option Ctx
  scene_name : String
  resolvePath : Except Unit Ctx
  resolveFallback : Except Unit Ctx
  excType : String
  excMsg : String
  excTrace : String
deriving Repr

/-- The calls `refresh_engine` makes on its external collaborators:
whether it reached the path-based resolution, the argument of
`current_engine.change_context` if called, whether
`create_sgtk_disabled_menu`, `remove_sgtk_disabled_menu` and
`current_engine.create_shotgun_menu` were invoked, and the segments of
the message passed to `display_error` (empty when no error was shown).
The menu functions themselves only touch the host's menu API (and
no-op in batch mode), so recording the calls is the full observable
behaviour at this level. -/
structure RefreshOut where
  pathResolutionTried : Bool
  change_context : Option Ctx
  disabledMenuBuilt : Bool
  disabledMenuRemoved : Bool
  shotgunMenuCreated : Bool
  errorParts : List String
deriving DecidableEq, Repr

/-- The no-effect outcome (the early `return` paths). -/
def noEffects : RefreshOut :=
  { pathResolutionTried := false
    change_context := none
    disabledMenuBuilt := false
    disabledMenuRemoved := false
    shotgunMenuCreated := false
    errorParts := [] }

/-- The segments concatenated into the diagnostic message
(engine.py lines 260-266). -/
def errorMessageParts (env : RefreshEnv) : List String :=
  ["Shotgun Clarisse Engine cannot be started:.\n",
   "Please contact you technical support team for more ",
   "information.\n\n",
   "Exception: ", env.excType, " - ", env.excMsg, "\n",
   "Traceback (most recent call last):\n",
   env.excTrace]

/-- The tail of `refresh_engine` once a context `ctx` has been resolved
(engine.py lines 274-282): remove any disabled menu, recreate the
shotgun menu, and change context only when the resolved context differs
from the engine's current one. -/
def refreshProceed (engineCtx ctx : Ctx) : RefreshOut :=
  { pathResolutionTried := true
    change_context := if ctx ≠ engineCtx then some ctx else none
    disabledMenuBuilt := false
    disabledMenuRemoved := true
    shotgunMenuCreated := true
    errorParts := [] }

/-- `refresh_engine` (engine.py lines 221-282).  With no current engine
it returns immediately (lines 227-230).  With an empty session file
name it only restores `prev_context` when that differs from the
engine's context (lines 236-239).  Otherwise it tries the path-based
resolution, then the fallback; if both raise `TankError` it builds the
disabled menu, shows the diagnostic, and returns (lines 249-272);
on success it proceeds to the menu/context tail. -/
def refresh_engine (prev_context : Ctx) (env : RefreshEnv) : RefreshOut :=
  match env.engine with
  | none => noEffects
  | some engineCtx =>
    if env.scene_name = "" then
      { noEffects with
          change_context :=
            if prev_context ≠ engineCtx then some prev_context else none }
    else
      match env.resolvePath with
      | Except.ok ctx => refreshProceed engineCtx ctx
      | Except.error _ =>
        match env.resolveFallback with
        | Except.ok ctx => refreshProceed engineCtx ctx
        | Except.error _ =>
          { noEffects with
              pathResolutionTried := true
              disabledMenuBuilt := true
              errorParts := errorMessageParts env }

/-! ### The Qt event pump bridge (pyside_clarisse.py lines 15-39) -/

/-- State of `PySideAppClarisseHelper` and its surroundings, with
Python attribute semantics for the `_helper` slot made explicit:
`classHelper` says whether the class attribute
`PySideAppClarisseHelper._helper` (line 16) references the live helper,
and `instanceHelper` is the helper instance's own `__dict__` entry for
`_helper`, created only by an assignment through `self` (line 39).
`self.app` is the QApplication handed to `__init__` (line 26) and is
always a live (truthy) object, so the guard on line 36 reduces to the
`closingDown` test.  `scheduled` counts pending
`ix.application.add_to_event_loop_single` registrations of
`process_events`; `invocations` counts completed `process_events` runs;
`qtPumped` counts `processEvents`/`sendPostedEvents` rounds. -/
structure PumpState where
  classHelper : Bool
  instanceHelper : Option (Option Unit)
  windowsVisible : Bool
  closingDown : Bool
  scheduled : Nat
  invocations : Nat
  qtPumped : Nat
deriving DecidableEq, Repr

/-- `PySideAppClarisseHelper.process_events` (pyside_clarisse.py lines
29-39), entered by the host consuming one scheduled registration: pump
Qt events only when some top-level window is visible; then, unless the
application is closing down, re-register exactly once on the host's
event loop; otherwise execute `self._helper = None`, which writes an
instance attribute and leaves the class attribute untouched. -/
def process_events (s : PumpState) : PumpState :=
  let s1 := { s with scheduled := s.scheduled - 1
                     invocations := s.invocations + 1 }
  let s2 := if s1.windowsVisible then { s1 with qtPumped := s1.qtPumped + 1 } else s1
  if ¬ s2.closingDown then
    { s2 with scheduled := s2.scheduled + 1 }
  else
    { s2 with instanceHelper := some none }

/-- One idle tick of the host event loop: it invokes `process_events`
exactly when a registration is pending. -/
def idleTick (s : PumpState) : PumpState :=
  if 0 < s.scheduled then process_events s else s

/-- Iterate host idle ticks. -/
def idleTicks (s : PumpState) : Nat → PumpState
  | 0 => s
  | k + 1 => idleTicks (idleTick s) k

/-- The pump state right after `exec_` installed the helper and
scheduled the first `process_events` run, with the application already
reporting shutdown. -/
def pumpShutdownInput : PumpState :=
  { classHelper := true
    instanceHelper := none
    windowsVisible := false
    closingDown := true
    scheduled := 1
    invocations := 0
    qtPumped := 0 }

/-! ### Startup command dispatch (engine.py lines 678-764) -/

/-- Registered engine commands as `_run_app_instance_commands` sees
them: each command name paired with the optional
`value["properties"].get("app")` instance name; the command's callback
is identified by its name. -/
abbrev Commands := List (String × Option String)

/-- The mapping from app instance name to its command names, built by
the first loop of `_run_app_instance_commands` (engine.py lines
686-695) with `setdefault` and dict insertion. -/
def buildAppInstanceCommands (commands : Commands) :
    List (String × List String) :=
  commands.foldl
    (fun acc p =>
      match p.2 with
      | none => acc
      | some inst =>
        match acc.lookup inst with
        | none => acc ++ [(inst, [p.1])]
        | some cmds =>
          acc.map (fun q => if q.1 = inst then (inst, cmds ++ [p.1]) else q))
    []

/-- Observable effects of `_run_app_instance_commands`: the command
functions handed to the deferred scheduler, and the number of
`logger.warning` calls. -/
structure StartupRun where
  deferred : List String
  warnings : Nat
deriving DecidableEq, Repr

/-- `clarisse.utils.executeDeferred(command_function)` (engine.py lines
734 and 749).  The name `clarisse` is bound nowhere in engine.py — the
file imports the host module as `ix` and never imports any `clarisse`
module — so evaluating the expression raises `NameError` before
anything is deferred; nothing in `_run_app_instance_commands` catches
it.  `Except.error` models that raise. -/
def executeDeferredCall (_c : String) : Except Unit String :=
  Except.error ()

/-- Dispatch every command of one app instance in turn (the inner loop
of engine.py lines 724-734); the exception from the first dispatch
aborts the whole call, carrying the effects made so far. -/
def dispatchAll (st : StartupRun) : List String → Except StartupRun StartupRun
  | [] => Except.ok st
  | c :: cs =>
    match executeDeferredCall c with
    | Except.error _ => Except.error st
    | Except.ok d => dispatchAll { st with deferred := st.deferred ++ [d] } cs

/-- The settings loop of `_run_app_instance_commands` (engine.py lines
699-764): unknown app instance → warning and skip (lines 709-717); an
empty command name runs all of the instance's commands (lines 719-734);
otherwise run the one named command if known (lines 741-749), else
warning and skip (lines 750-764). -/
def startupLoop (table : List (String × List String)) (st : StartupRun) :
    List (String × String) → Except StartupRun StartupRun
  | [] => Except.ok st
  | (inst, cname) :: rest =>
    match table.lookup inst with
    | none => startupLoop table { st with warnings := st.warnings + 1 } rest
    | some cmds =>
      if cname = "" then
        match dispatchAll st cmds with
        | Except.error st2 => Except.error st2
        | Except.ok st2 => startupLoop table st2 rest
      else
        if cmds.contains cname then
          match executeDeferredCall cname with
          | Except.error _ => Except.error st
          | Except.ok d =>
            startupLoop table { st with deferred := st.deferred ++ [d] } rest
        else
          startupLoop table { st with warnings := st.warnings + 1 } rest

/-- `ClarisseEngine._run_app_instance_commands` (engine.py lines
678-764). -/
def runAppInstanceCommands (commands : Commands)
    (run_at_startup : List (String × String)) : Except StartupRun StartupRun :=
  startupLoop (buildAppInstanceCommands commands) ⟨[], 0⟩ run_at_startup

/-- The registered commands of the claim:
app instance A owns cmd1 and cmd2, app instance B owns cmd3. -/
def claimCommands : Commands :=
  [("cmd1", some "A"), ("cmd2", some "A"), ("cmd3", some "B")]

/-- The `run_at_startup` setting of the claim. -/
def claimStartup : List (String × String) :=
  [("A", ""), ("B", "cmd3")]

/-- A concrete environment with no project file open (File - New). -/
def envEmptyScene : RefreshEnv :=
  { engine := some 5, scene_name := "", resolvePath := Except.error (),
    resolveFallback := Except.error (), excType := "T", excMsg := "M",
    excTrace := "TB" }

/-- A concrete environment where both the path-based resolution and the
fallback resolution raise `TankError`. -/
def envDoubleFail : RefreshEnv :=
  { engine := some 1, scene_name := "/shots/sc01/anim.project",
    resolvePath := Except.error (), resolveFallback := Except.error (),
    excType := "tank.TankError", excMsg := "no pipeline configuration",
    excTrace := "  File engine.py, line 255\n" }

/-- A concrete environment where the path-based resolution yields the
engine's current context. -/
def envSameCtx : RefreshEnv :=
  { engine := some 4, scene_name := "/shots/sc01/anim.project",
    resolvePath := Except.ok 4, resolveFallback := Except.error (),
    excType := "", excMsg := "", excTrace := "" }

end TkClarisse

namespace TkClarisse

theorem regStep0 (ids : String → Nat) (ro : Bool) (tr : List Nat) :
    registerScene (stepSt ids ro tr 0) "new_project" = stepSt ids ro tr 1 := by
  simp [registerScene, stepSt, getAttr, setAttr, SCENE_EVENT_NAMES,
    SCENE_QUIT_EVENT_NAME, List.lookup]

theorem regStep1 (ids : String → Nat) (ro : Bool) (tr : List Nat) :
    registerScene (stepSt ids ro tr 1) "clear_project" = stepSt ids ro tr 2 := by
  simp [registerScene, stepSt, getAttr, setAttr, SCENE_EVENT_NAMES,
    SCENE_QUIT_EVENT_NAME, List.lookup]

theorem regStep2 (ids : String → Nat) (ro : Bool) (tr : List Nat) :
    registerScene (stepSt ids ro tr 2) "import_project" = stepSt ids ro tr 3 := by
  simp [registerScene, stepSt, getAttr, setAttr, SCENE_EVENT_NAMES,
    SCENE_QUIT_EVENT_NAME, List.lookup]

theorem regStep3 (ids : String → Nat) (ro : Bool) (tr : List Nat) :
    registerScene (stepSt ids ro tr 3) "load_project" = stepSt ids ro tr 4 := by
  simp [registerScene, stepSt, getAttr, setAttr, SCENE_EVENT_NAMES,
    SCENE_QUIT_EVENT_NAME, List.lookup]

theorem regStep4 (ids : String → Nat) (ro : Bool) (tr : List Nat) :
    registerScene (stepSt ids ro tr 4) "save_project" = stepSt ids ro tr 5 := by
  simp [registerScene, stepSt, getAttr, setAttr, SCENE_EVENT_NAMES,
    SCENE_QUIT_EVENT_NAME, List.lookup]

theorem regStep5 (ids : String → Nat) (ro : Bool) (tr : List Nat) :
    registerScene (stepSt ids ro tr 5) "load_startup_scene" = stepSt ids ro tr 6 := by
  simp [registerScene, stepSt, getAttr, setAttr, SCENE_EVENT_NAMES,
    SCENE_QUIT_EVENT_NAME, List.lookup]

theorem cleanSt_eq_step0 (ids : String → Nat) (ro : Bool) (tr : List Nat) :
    cleanSt ids ro tr = stepSt ids ro tr 0 := by
  simp [cleanSt, cleanHost, stepSt, SCENE_EVENT_NAMES, SCENE_QUIT_EVENT_NAME]

theorem foldl_regs (ids : String → Nat) (ro : Bool) (tr : List Nat) :
    SCENE_EVENT_NAMES.foldl registerScene (stepSt ids ro tr 0) = stepSt ids ro tr 6 := by
  simp only [SCENE_EVENT_NAMES, List.foldl_cons, List.foldl_nil,
    regStep0, regStep1, regStep2, regStep3, regStep4, regStep5]

theorem regQuit6 (ids : String → Nat) (ro : Bool) (tr : List Nat) :
    registerQuit (stepSt ids ro tr 6) = Except.ok (watchSt ids ro tr) := by
  simp [registerQuit, stepSt, watchSt, watchedHost, getAttr, setAttr,
    SCENE_EVENT_NAMES, SCENE_QUIT_EVENT_NAME, List.lookup]

theorem registerAll_clean (ids : String → Nat) (ro : Bool) (tr : List Nat) :
    registerAll (cleanSt ids ro tr) = Except.ok (watchSt ids ro tr) := by
  rw [registerAll, cleanSt_eq_step0, foldl_regs, regQuit6]

theorem stop_clean (ids : String → Nat) (ro : Bool) (tr : List Nat) :
    stop_watching (cleanSt ids ro tr) = cleanSt ids ro tr := rfl

theorem stop_watch (ids : String → Nat) (ro : Bool) (tr : List Nat) :
    stop_watching (watchSt ids ro tr) = cleanSt ids ro tr := by
  simp [stop_watching, watchSt, cleanSt, watchedHost, cleanHost,
    SCENE_EVENT_NAMES, SCENE_QUIT_EVENT_NAME, setAttr, Fn.original,
    List.lookup]

theorem start_clean (ids : String → Nat) (ro : Bool) (tr : List Nat) :
    start_watching (cleanSt ids ro tr) = Except.ok (watchSt ids ro tr) := by
  rw [start_watching, stop_clean, registerAll_clean]

theorem start_watch (ids : String → Nat) (ro : Bool) (tr : List Nat) :
    start_watching (watchSt ids ro tr) = Except.ok (watchSt ids ro tr) := by
  rw [start_watching, stop_watch, registerAll_clean]

end TkClarisse
namespace TkClarisse

theorem getAttr_nil (m : String) : getAttr [] m = none := rfl

theorem getAttr_cons (k : String) (v : Fn) (t : Attrs) (m : String) :
    getAttr ((k, v) :: t) m = if m = k then some v else getAttr t m := by
  by_cases h : m = k
  · subst h; simp [getAttr, List.lookup]
  · have hb : (m == k) = false := beq_eq_false_iff_ne.mpr h
    simp [getAttr, List.lookup, hb, h]

theorem getAttr_append (h1 h2 : Attrs) (m : String) :
    getAttr (h1 ++ h2) m = (getAttr h1 m).or (getAttr h2 m) := by
  induction h1 with
  | nil => simp [getAttr_nil]
  | cons p t ih =>
    obtain ⟨k, v⟩ := p
    by_cases h : m = k <;> simp [getAttr_cons, h, ih]

theorem getAttr_mapUpdate_ne (h : Attrs) (n : String) (f : Fn) (m : String)
    (hne : m ≠ n) :
    getAttr (h.map (fun p => if p.1 = n then (n, f) else p)) m = getAttr h m := by
  induction h with
  | nil => rfl
  | cons p t ih =>
    obtain ⟨k, v⟩ := p
    by_cases hkn : k = n
    · subst hkn
      simp [getAttr_cons, hne, ih]
    · by_cases hmk : m = k <;> simp [getAttr_cons, hkn, hmk, ih]

theorem getAttr_mapUpdate_self (h : Attrs) (n : String) (f : Fn)
    (hs : (getAttr h n).isSome) :
    getAttr (h.map (fun p => if p.1 = n then (n, f) else p)) n = some f := by
  induction h with
  | nil => simp [getAttr_nil] at hs
  | cons p t ih =>
    obtain ⟨k, v⟩ := p
    by_cases hkn : k = n
    · subst hkn; simp [getAttr_cons]
    · have hnk : n ≠ k := fun hh => hkn hh.symm
      simp [getAttr_cons, hkn, hnk] at hs ⊢
      exact ih hs

theorem getAttr_setAttr_self (h : Attrs) (n : String) (f : Fn) :
    getAttr (setAttr h n f) n = some f := by
  unfold setAttr
  rcases hx : h.lookup n with _ | v
  · show getAttr (h ++ [(n, f)]) n = some f
    rw [getAttr_append, show getAttr h n = none from hx, getAttr_cons]
    simp
  · simp [hx]
    exact getAttr_mapUpdate_self h n f (by simp [getAttr, hx])

theorem getAttr_setAttr_ne (h : Attrs) (n : String) (f : Fn) (m : String)
    (hne : m ≠ n) : getAttr (setAttr h n f) m = getAttr h m := by
  unfold setAttr
  rcases hx : h.lookup n with _ | v
  · show getAttr (h ++ [(n, f)]) m = getAttr h m
    rw [getAttr_append, getAttr_cons]
    simp [hne, getAttr_nil]
  · simp [hx]
    exact getAttr_mapUpdate_ne h n f m hne

theorem registerScene_host (s : WState) (n m : String) :
    getAttr (registerScene s n).host m =
      if m = n then (getAttr s.host n).map (fun f => Fn.wrap f false)
      else getAttr s.host m := by
  unfold registerScene
  rcases hn : getAttr s.host n with _ | f
  · by_cases h : m = n <;> simp [h, hn]
  · by_cases h : m = n
    · subst h; simp [hn, getAttr_setAttr_self]
    · simp [h, getAttr_setAttr_ne _ _ _ _ h]

theorem foldl_registerScene_host (names : List String) (s : WState)
    (hnd : names.Nodup) (m : String) :
    getAttr (names.foldl registerScene s).host m =
      if m ∈ names then (getAttr s.host m).map (fun f => Fn.wrap f false)
      else getAttr s.host m := by
  induction names generalizing s with
  | nil => simp
  | cons n rest ih =>
    have hnotin : n ∉ rest := (List.nodup_cons.mp hnd).1
    have hndr : rest.Nodup := (List.nodup_cons.mp hnd).2
    show getAttr (rest.foldl registerScene (registerScene s n)).host m = _
    rw [ih (registerScene s n) hndr]
    by_cases hm : m = n
    · subst hm
      simp [hnotin, registerScene_host]
    · by_cases hr : m ∈ rest <;>
        simp [hr, hm, registerScene_host, List.mem_cons]

end TkClarisse
namespace TkClarisse

theorem scene_nodup : SCENE_EVENT_NAMES.Nodup := by decide

theorem quit_not_scene : SCENE_QUIT_EVENT_NAME ∉ SCENE_EVENT_NAMES := by decide

theorem mkWatcher_eq (host : Attrs) (ro : Bool) :
    mkWatcher host ro =
      registerQuit (SCENE_EVENT_NAMES.foldl registerScene
        { host := host, wrapped_fns := [], run_once := ro, cbRecords := [] }) := rfl

theorem mkWatcher_quit_present (host : Attrs) (ro : Bool) (fq : Fn)
    (hq : getAttr host SCENE_QUIT_EVENT_NAME = some fq) :
    ∃ s2, mkWatcher host ro = Except.ok s2 ∧
      ∀ m, getAttr s2.host m =
        if m = SCENE_QUIT_EVENT_NAME then some (Fn.wrap fq true)
        else if m ∈ SCENE_EVENT_NAMES then
          (getAttr host m).map (fun f => Fn.wrap f false)
        else getAttr host m := by
  have hfold := foldl_registerScene_host SCENE_EVENT_NAMES
    { host := host, wrapped_fns := [], run_once := ro, cbRecords := [] }
    scene_nodup
  have hq1 : getAttr (SCENE_EVENT_NAMES.foldl registerScene
      { host := host, wrapped_fns := [], run_once := ro, cbRecords := [] }).host
      SCENE_QUIT_EVENT_NAME = some fq := by
    rw [hfold SCENE_QUIT_EVENT_NAME]
    simp [quit_not_scene, hq]
  rw [mkWatcher_eq]
  unfold registerQuit
  rw [hq1]
  refine ⟨_, rfl, fun m => ?_⟩
  by_cases hm : m = SCENE_QUIT_EVENT_NAME
  · subst hm
    simp [getAttr_setAttr_self]
  · rw [if_neg hm]
    show getAttr (setAttr _ SCENE_QUIT_EVENT_NAME _) m = _
    rw [getAttr_setAttr_ne _ _ _ _ hm, hfold m]

theorem mkWatcher_quit_missing (host : Attrs) (ro : Bool)
    (hq : getAttr host SCENE_QUIT_EVENT_NAME = none) :
    mkWatcher host ro = Except.error () := by
  have hfold := foldl_registerScene_host SCENE_EVENT_NAMES
    { host := host, wrapped_fns := [], run_once := ro, cbRecords := [] }
    scene_nodup
  have hq1 : getAttr (SCENE_EVENT_NAMES.foldl registerScene
      { host := host, wrapped_fns := [], run_once := ro, cbRecords := [] }).host
      SCENE_QUIT_EVENT_NAME = none := by
    rw [hfold SCENE_QUIT_EVENT_NAME]
    simp [quit_not_scene, hq]
  rw [mkWatcher_eq]
  unfold registerQuit
  rw [hq1]

end TkClarisse
namespace TkClarisse

theorem sceneCb_watch_runonce (ids : String → Nat) (tr : List Nat) :
    scene_event_callback (watchSt ids true tr) = cleanSt ids true (tr ++ [0]) := by
  simp [scene_event_callback, show (watchSt ids true tr).run_once = true from rfl,
    stop_watch, cleanSt]

theorem fireEvent_clean (ids : String → Nat) (ro : Bool) (tr : List Nat)
    (n : String) : fireEvent (cleanSt ids ro tr) n = cleanSt ids ro tr := by
  unfold fireEvent
  rcases h : getAttr (cleanSt ids ro tr).host n with _ | f
  · rfl
  · have hf : f = Fn.base (ids n) := by
      simp only [cleanSt, cleanHost, getAttr, SCENE_EVENT_NAMES,
        SCENE_QUIT_EVENT_NAME, List.map_append, List.map_cons, List.map_nil,
        List.lookup] at h
      repeat' split at h
      all_goals simp_all [beq_iff_eq]
    subst hf
    rfl

theorem fireEvents_clean (ids : String → Nat) (ro : Bool) (tr : List Nat)
    (evs : List String) : fireEvents (cleanSt ids ro tr) evs = cleanSt ids ro tr := by
  induction evs with
  | nil => rfl
  | cons e rest ih =>
    show fireEvents (fireEvent (cleanSt ids ro tr) e) rest = cleanSt ids ro tr
    rw [fireEvent_clean, ih]

theorem getAttr_watch_scene (ids : String → Nat) {n : String}
    (h : n ∈ SCENE_EVENT_NAMES) :
    getAttr (watchedHost ids) n = some (Fn.wrap (Fn.base (ids n)) false) := by
  fin_cases h <;>
    simp [getAttr, watchedHost, SCENE_EVENT_NAMES, SCENE_QUIT_EVENT_NAME,
      List.lookup]

theorem getAttr_watch_quit (ids : String → Nat) :
    getAttr (watchedHost ids) SCENE_QUIT_EVENT_NAME
      = some (Fn.wrap (Fn.base (ids SCENE_QUIT_EVENT_NAME)) true) := by
  simp [getAttr, watchedHost, SCENE_EVENT_NAMES, SCENE_QUIT_EVENT_NAME,
    List.lookup]

theorem getAttr_watch_none (ids : String → Nat) (n : String)
    (h1 : n ∉ SCENE_EVENT_NAMES) (h2 : n ≠ SCENE_QUIT_EVENT_NAME) :
    getAttr (watchedHost ids) n = none := by
  simp only [SCENE_EVENT_NAMES, List.mem_cons, List.not_mem_nil, or_false,
    not_or] at h1
  simp only [SCENE_QUIT_EVENT_NAME] at h2
  obtain ⟨e1, e2, e3, e4, e5, e6⟩ := h1
  have b1 : (n == "new_project") = false := beq_eq_false_iff_ne.mpr e1
  have b2 : (n == "clear_project") = false := beq_eq_false_iff_ne.mpr e2
  have b3 : (n == "import_project") = false := beq_eq_false_iff_ne.mpr e3
  have b4 : (n == "load_project") = false := beq_eq_false_iff_ne.mpr e4
  have b5 : (n == "save_project") = false := beq_eq_false_iff_ne.mpr e5
  have b6 : (n == "load_startup_scene") = false := beq_eq_false_iff_ne.mpr e6
  have b7 : (n == "quit") = false := beq_eq_false_iff_ne.mpr h2
  simp [getAttr, watchedHost, SCENE_EVENT_NAMES, SCENE_QUIT_EVENT_NAME,
    List.lookup, b1, b2, b3, b4, b5, b6, b7]

theorem fireEvent_watch (ids : String → Nat) (tr : List Nat) (n : String) :
    fireEvent (watchSt ids true tr) n =
      if n ∈ SCENE_EVENT_NAMES then cleanSt ids true (tr ++ [0])
      else if n = SCENE_QUIT_EVENT_NAME then cleanSt ids true tr
      else watchSt ids true tr := by
  by_cases hm : n ∈ SCENE_EVENT_NAMES
  · rw [if_pos hm]
    unfold fireEvent
    rw [show (watchSt ids true tr).host = watchedHost ids from rfl,
      getAttr_watch_scene ids hm]
    exact sceneCb_watch_runonce ids tr
  · rw [if_neg hm]
    by_cases hq : n = SCENE_QUIT_EVENT_NAME
    · rw [if_pos hq]
      subst hq
      unfold fireEvent
      rw [show (watchSt ids true tr).host = watchedHost ids from rfl,
        getAttr_watch_quit ids]
      exact stop_watch ids true tr
    · rw [if_neg hq]
      unfold fireEvent
      rw [show (watchSt ids true tr).host = watchedHost ids from rfl,
        getAttr_watch_none ids n hm hq]

end TkClarisse
namespace TkClarisse

theorem runOps_char (ids : String → Nat) (ro : Bool) (tr : List Nat)
    (ops : List WOp) :
    ∀ b : Bool,
      runOps (if b then watchSt ids ro tr else cleanSt ids ro tr) ops
        = Except.ok (if endsWatching b ops then watchSt ids ro tr
                     else cleanSt ids ro tr) := by
  induction ops with
  | nil => intro b; cases b <;> rfl
  | cons op rest ih =>
    intro b
    cases op with
    | startW =>
      have h1 : applyOp (if b then watchSt ids ro tr else cleanSt ids ro tr)
          WOp.startW = Except.ok (watchSt ids ro tr) := by
        cases b
        · exact start_clean ids ro tr
        · exact start_watch ids ro tr
      show (applyOp (if b then watchSt ids ro tr else cleanSt ids ro tr)
          WOp.startW).bind (fun s2 => runOps s2 rest) = _
      rw [h1]
      simpa [endsWatching] using ih true
    | stopW =>
      have h1 : applyOp (if b then watchSt ids ro tr else cleanSt ids ro tr)
          WOp.stopW = Except.ok (cleanSt ids ro tr) := by
        cases b
        · exact congrArg Except.ok (stop_clean ids ro tr)
        · exact congrArg Except.ok (stop_watch ids ro tr)
      show (applyOp (if b then watchSt ids ro tr else cleanSt ids ro tr)
          WOp.stopW).bind (fun s2 => runOps s2 rest) = _
      rw [h1]
      simpa [endsWatching] using ih false

theorem run_once_outcome (ids : String → Nat) (evs : List String) :
    fireEvents (watchSt ids true []) evs =
      match evs.find? relevantEv with
      | none => watchSt ids true []
      | some m =>
        if m = SCENE_QUIT_EVENT_NAME then cleanSt ids true []
        else cleanSt ids true [0] := by
  induction evs with
  | nil => rfl
  | cons e rest ih =>
    show fireEvents (fireEvent (watchSt ids true []) e) rest = _
    by_cases hm : e ∈ SCENE_EVENT_NAMES
    · have hrel : relevantEv e = true := by
        simp [relevantEv, List.contains, List.elem_eq_mem, hm]
      have hne : e ≠ SCENE_QUIT_EVENT_NAME := by
        intro hh
        exact quit_not_scene (hh ▸ hm)
      rw [fireEvent_watch, if_pos hm, fireEvents_clean]
      simp [List.find?, hrel, hne]
    · by_cases hq : e = SCENE_QUIT_EVENT_NAME
      · subst hq
        have hrel : relevantEv SCENE_QUIT_EVENT_NAME = true := by
          simp [relevantEv]
        rw [fireEvent_watch, if_neg hm, if_pos rfl, fireEvents_clean]
        simp [List.find?, hrel]
      · have hrel : relevantEv e = false := by
          simp [relevantEv, List.contains, List.elem_eq_mem, hm, hq]
        rw [fireEvent_watch, if_neg hm, if_neg hq]
        rw [ih]
        simp [List.find?, hrel]

end TkClarisse
namespace TkClarisse

theorem idleTicks_stuck (k : Nat) (s : PumpState) (h : s.scheduled = 0) :
    idleTicks s k = s := by
  induction k with
  | zero => rfl
  | succ n ih =>
    show idleTicks (idleTick s) n = s
    have ht : idleTick s = s := by
      unfold idleTick
      rw [h]
      simp
    rw [ht, ih]

/-- C1: after any sequence of `start_watching`/`stop_watching` calls on
a watcher constructed over a host exposing all watched entry points,
the patched attributes are exactly those installed by the last
`start_watching` not followed by a `stop_watching` (all watched entry
points when watching, none otherwise, with every original restored);
`stop_watching` is idempotent; and no host attribute is ever wrapped
more than once by the watcher. -/
theorem watcher_patch_lifecycle (ids : String → Nat) (ro : Bool)
    (ops : List WOp) :
    (mkWatcher (cleanHost ids) ro).bind (fun s => runOps s ops)
        = Except.ok (if endsWatching true ops then watchSt ids ro []
                     else cleanSt ids ro [])
      ∧ (∀ s : WState, stop_watching (stop_watching s) = stop_watching s)
      ∧ (∀ p ∈ (watchSt ids ro []).host, p.2.depth ≤ 1)
      ∧ (∀ p ∈ (cleanSt ids ro []).host, p.2.depth = 0) := by
  refine ⟨?_, fun s => rfl, ?_, ?_⟩
  · have h0 : mkWatcher (cleanHost ids) ro = Except.ok (watchSt ids ro []) :=
      start_clean ids ro []
    rw [h0]
    show runOps (watchSt ids ro []) ops = _
    simpa using runOps_char ids ro [] ops true
  · simp [watchSt, watchedHost, SCENE_EVENT_NAMES, SCENE_QUIT_EVENT_NAME,
      Fn.depth]
  · simp [cleanSt, cleanHost, SCENE_EVENT_NAMES, SCENE_QUIT_EVENT_NAME,
      Fn.depth]

/-- C2: a watcher constructed with `run_once = true` invokes the user
callback at most once over any sequence of host lifecycle events, every
callback invocation happens with zero entries still patched, and once
the callback has fired the watcher's table is empty and every host
entry point carries its original again. -/
theorem run_once_fires_at_most_once (ids : String → Nat) (evs : List String) :
    ∃ s : WState,
      mkWatcher (cleanHost ids) true = Except.ok s
      ∧ (fireEvents s evs).cbRecords.length ≤ 1
      ∧ (∀ r ∈ (fireEvents s evs).cbRecords, r = 0)
      ∧ ((fireEvents s evs).cbRecords ≠ [] →
          (fireEvents s evs).wrapped_fns = []
            ∧ (fireEvents s evs).host = cleanHost ids) := by
  refine ⟨watchSt ids true [], start_clean ids true [], ?_⟩
  have h := run_once_outcome ids evs
  rcases hf : evs.find? relevantEv with _ | m
  · rw [hf] at h
    have h2 : fireEvents (watchSt ids true []) evs = watchSt ids true [] := h
    rw [h2]
    refine ⟨by simp [watchSt], by simp [watchSt], ?_⟩
    intro hne
    exact absurd rfl hne
  · rw [hf] at h
    have h2 : fireEvents (watchSt ids true []) evs =
        if m = SCENE_QUIT_EVENT_NAME then cleanSt ids true []
        else cleanSt ids true [0] := h
    by_cases hmq : m = SCENE_QUIT_EVENT_NAME
    · rw [h2, if_pos hmq]
      refine ⟨by simp [cleanSt], by simp [cleanSt], ?_⟩
      intro hne
      exact absurd rfl hne
    · rw [h2, if_neg hmq]
      refine ⟨by simp [cleanSt], by simp [cleanSt], fun _ => ⟨rfl, rfl⟩⟩

end TkClarisse
namespace TkClarisse

/-- C4 (amended): for each of the six scene events, a host that does
not expose that entry point makes `start_watching` skip exactly that
registration — the construction still succeeds and every other watched
entry point (including quit) is wrapped — while a host that does not
expose the quit entry point makes `start_watching` raise, because the
quit registration sits outside the guarded loop. -/
theorem start_watching_missing_entry (ids : String → Nat) (m : String)
    (hm : m ∈ SCENE_EVENT_NAMES) :
    (∃ s2, mkWatcher (hostWithout ids m) false = Except.ok s2
       ∧ getAttr s2.host m = none
       ∧ (∀ n ∈ SCENE_EVENT_NAMES, n ≠ m →
            getAttr s2.host n = some (Fn.wrap (Fn.base (ids n)) false))
       ∧ getAttr s2.host SCENE_QUIT_EVENT_NAME
           = some (Fn.wrap (Fn.base (ids SCENE_QUIT_EVENT_NAME)) true))
    ∧ (∀ host ro, getAttr host SCENE_QUIT_EVENT_NAME = none →
        mkWatcher host ro = Except.error ()) := by
  refine ⟨?_, fun host ro hq => mkWatcher_quit_missing host ro hq⟩
  have hq : getAttr (hostWithout ids m) SCENE_QUIT_EVENT_NAME
      = some (Fn.base (ids SCENE_QUIT_EVENT_NAME)) := by
    fin_cases hm <;>
      simp [hostWithout, getAttr_cons, getAttr_nil, SCENE_EVENT_NAMES,
        SCENE_QUIT_EVENT_NAME, List.filter]
  obtain ⟨s2, hok, hchar⟩ :=
    mkWatcher_quit_present (hostWithout ids m) false _ hq
  have hmq : m ≠ SCENE_QUIT_EVENT_NAME := fun hh => quit_not_scene (hh ▸ hm)
  refine ⟨s2, hok, ?_, ?_, ?_⟩
  · rw [hchar m, if_neg hmq, if_pos hm]
    have hmm : getAttr (hostWithout ids m) m = none := by
      fin_cases hm <;>
        simp [hostWithout, getAttr_cons, getAttr_nil, SCENE_EVENT_NAMES,
          SCENE_QUIT_EVENT_NAME, List.filter]
    rw [hmm]
    rfl
  · intro n hn hne
    have hnq : n ≠ SCENE_QUIT_EVENT_NAME := fun hh => quit_not_scene (hh ▸ hn)
    rw [hchar n, if_neg hnq, if_pos hn]
    have hng : getAttr (hostWithout ids m) n = some (Fn.base (ids n)) := by
      fin_cases hm <;> fin_cases hn <;>
        first
        | exact absurd rfl hne
        | simp [hostWithout, getAttr_cons, getAttr_nil, SCENE_EVENT_NAMES,
            SCENE_QUIT_EVENT_NAME, List.filter]
    rw [hng]
    rfl
  · rw [hchar SCENE_QUIT_EVENT_NAME, if_pos rfl]

/-- C4 witness: the amended statement at the host missing exactly
`save_project`. -/
theorem start_watching_missing_entry_witness :
    ("save_project" ∈ SCENE_EVENT_NAMES)
    ∧ ((∃ s2, mkWatcher (hostWithout (fun _ => 0) "save_project") false
            = Except.ok s2
         ∧ getAttr s2.host "save_project" = none
         ∧ (∀ n ∈ SCENE_EVENT_NAMES, n ≠ "save_project" →
              getAttr s2.host n = some (Fn.wrap (Fn.base 0) false))
         ∧ getAttr s2.host SCENE_QUIT_EVENT_NAME
             = some (Fn.wrap (Fn.base 0) true))
       ∧ (∀ host ro, getAttr host SCENE_QUIT_EVENT_NAME = none →
           mkWatcher host ro = Except.error ())) :=
  ⟨by decide,
    start_watching_missing_entry (fun _ => 0) "save_project" (by decide)⟩

/-- C4 counterexample: on a host exposing the six scene events but not
the quit entry point, the constructor's `start_watching` raises instead
of skipping the missing registration, refuting the claim that a missing
entry point is always caught and `start_watching` never raises. -/
theorem start_watching_raises_on_missing_quit :
    mkWatcher hostNoQuit false = Except.error () :=
  mkWatcher_quit_missing hostNoQuit false (by decide)

/-- C3: `start_watching` binds each of the six scene events to a
post-callback wrapper and quit to a pre-callback wrapper, and a wrapper
in the post configuration calls the captured original on the given
arguments and then the post-callback, while the pre configuration runs
the pre-callback before the original; the original's result is returned
unchanged. -/
theorem patched_entry_call_order (ids : String → Nat) (ro : Bool)
    (origBeh : List Nat → Except Nat Nat) (args : List Nat) (v : Nat)
    (h : origBeh args = Except.ok v) :
    (∀ n ∈ SCENE_EVENT_NAMES,
        getAttr (watchedHost ids) n = some (Fn.wrap (Fn.base (ids n)) false))
    ∧ getAttr (watchedHost ids) SCENE_QUIT_EVENT_NAME
        = some (Fn.wrap (Fn.base (ids SCENE_QUIT_EVENT_NAME)) true)
    ∧ mkWatcher (cleanHost ids) ro = Except.ok (watchSt ids ro [])
    ∧ wrapperRun false true (Except.ok ()) origBeh args
        = ([CallEv.origCall args, CallEv.postCb], Except.ok v)
    ∧ wrapperRun true false (Except.ok ()) origBeh args
        = ([CallEv.preCb, CallEv.origCall args], Except.ok v) := by
  refine ⟨fun n hn => getAttr_watch_scene ids hn, getAttr_watch_quit ids,
    start_clean ids ro [], ?_, ?_⟩
  · simp [wrapperRun, h]
  · simp [wrapperRun, h]

/-- C3 witness: the statement at a concrete original that returns 7 on
arguments `[1, 2]`. -/
theorem patched_entry_call_order_witness :
    ((fun _ : List Nat => (Except.ok 7 : Except Nat Nat)) [1, 2]
        = Except.ok 7)
    ∧ ((∀ n ∈ SCENE_EVENT_NAMES,
          getAttr (watchedHost (fun _ => 0)) n
            = some (Fn.wrap (Fn.base 0) false))
       ∧ getAttr (watchedHost (fun _ => 0)) SCENE_QUIT_EVENT_NAME
           = some (Fn.wrap (Fn.base 0) true)
       ∧ mkWatcher (cleanHost (fun _ => 0)) false
           = Except.ok (watchSt (fun _ => 0) false [])
       ∧ wrapperRun false true (Except.ok ())
           (fun _ => (Except.ok 7 : Except Nat Nat)) [1, 2]
           = ([CallEv.origCall [1, 2], CallEv.postCb], Except.ok 7)
       ∧ wrapperRun true false (Except.ok ())
           (fun _ => (Except.ok 7 : Except Nat Nat)) [1, 2]
           = ([CallEv.preCb, CallEv.origCall [1, 2]], Except.ok 7)) :=
  ⟨rfl, patched_entry_call_order (fun _ => 0) false
    (fun _ => (Except.ok 7 : Except Nat Nat)) [1, 2] 7 rfl⟩

/-- C10: if the captured original raises, the wrapper's bare
`except: raise` propagates the exception unchanged and the
post-callback never runs; in the pre-callback configuration, a raising
pre-callback prevents the original from running at all. -/
theorem wrapper_exception_flow (origBeh : List Nat → Except Nat Nat)
    (args : List Nat) (e : Nat) (h : origBeh args = Except.error e) :
    wrapperRun false true (Except.ok ()) origBeh args
        = ([CallEv.origCall args], Except.error e)
      ∧ (∀ e2 : Nat, ∀ beh : List Nat → Except Nat Nat,
          wrapperRun true false (Except.error e2) beh args
            = ([CallEv.preCb], Except.error e2)) := by
  constructor
  · simp [wrapperRun, h]
  · intro e2 beh
    simp [wrapperRun]

/-- C10 witness: the statement at a concrete original that raises 3. -/
theorem wrapper_exception_flow_witness :
    ((fun _ : List Nat => (Except.error 3 : Except Nat Nat)) []
        = Except.error 3)
    ∧ (wrapperRun false true (Except.ok ())
          (fun _ => (Except.error 3 : Except Nat Nat)) []
          = ([CallEv.origCall []], Except.error 3)
        ∧ (∀ e2 : Nat, ∀ beh : List Nat → Except Nat Nat,
            wrapperRun true false (Except.error e2) beh []
              = ([CallEv.preCb], Except.error e2))) :=
  ⟨rfl, wrapper_exception_flow
    (fun _ => (Except.error 3 : Except Nat Nat)) [] 3 rfl⟩

end TkClarisse
namespace TkClarisse

/-- C5: with a live engine and an empty session file name,
`refresh_engine` performs no path-based resolution and calls
`change_context prev_context` exactly when the previous context differs
from the engine's current one; nothing else happens. -/
theorem refresh_empty_path (prev c : Ctx) (env : RefreshEnv)
    (he : env.engine = some c) (hs : env.scene_name = "") :
    refresh_engine prev env =
      { noEffects with
          change_context := if prev ≠ c then some prev else none } := by
  simp [refresh_engine, he, hs]

/-- C5 witness: the statement at a previous context 3 and an engine
context 5 with an empty file name. -/
theorem refresh_empty_path_witness :
    refresh_engine 3 envEmptyScene
      = { noEffects with change_context := some 3 } :=
  refresh_empty_path 3 5 envEmptyScene rfl rfl

/-- C6: with a non-empty file name, when the path-based resolution and
the fallback both raise `TankError`, `refresh_engine` builds the
disabled menu, shows a diagnostic whose segments include the exception
type, message and formatted traceback, and returns without calling
`change_context` and without creating the normal menu. -/
theorem refresh_double_failure (prev c : Ctx) (env : RefreshEnv)
    (he : env.engine = some c) (hs : env.scene_name ≠ "")
    (h1 : env.resolvePath = Except.error ())
    (h2 : env.resolveFallback = Except.error ()) :
    refresh_engine prev env =
      { pathResolutionTried := true
        change_context := none
        disabledMenuBuilt := true
        disabledMenuRemoved := false
        shotgunMenuCreated := false
        errorParts := errorMessageParts env }
      ∧ env.excType ∈ errorMessageParts env
      ∧ env.excMsg ∈ errorMessageParts env
      ∧ env.excTrace ∈ errorMessageParts env := by
  refine ⟨?_, ?_, ?_, ?_⟩
  · simp [refresh_engine, he, hs, h1, h2, noEffects]
  · simp [errorMessageParts]
  · simp [errorMessageParts]
  · simp [errorMessageParts]

/-- C6 witness: the statement at the concrete double-failure
environment. -/
theorem refresh_double_failure_witness :
    refresh_engine 0 envDoubleFail =
      { pathResolutionTried := true
        change_context := none
        disabledMenuBuilt := true
        disabledMenuRemoved := false
        shotgunMenuCreated := false
        errorParts := errorMessageParts envDoubleFail }
      ∧ "tank.TankError" ∈ errorMessageParts envDoubleFail
      ∧ "no pipeline configuration" ∈ errorMessageParts envDoubleFail
      ∧ "  File engine.py, line 255\n" ∈ errorMessageParts envDoubleFail :=
  refresh_double_failure 0 1 envDoubleFail rfl (by decide) rfl rfl

/-- C7: with a non-empty file name, when resolution succeeds and yields
exactly the engine's current context, `refresh_engine` removes any
disabled menu and recreates the normal menu but does not invoke
`change_context`. -/
theorem refresh_same_context (prev c : Ctx) (env : RefreshEnv)
    (he : env.engine = some c) (hs : env.scene_name ≠ "")
    (h1 : env.resolvePath = Except.ok c) :
    refresh_engine prev env =
      { pathResolutionTried := true
        change_context := none
        disabledMenuBuilt := false
        disabledMenuRemoved := true
        shotgunMenuCreated := true
        errorParts := [] } := by
  simp [refresh_engine, he, hs, h1, refreshProceed]

/-- C7 witness: the statement at the concrete same-context
environment. -/
theorem refresh_same_context_witness :
    refresh_engine 9 envSameCtx =
      { pathResolutionTried := true
        change_context := none
        disabledMenuBuilt := false
        disabledMenuRemoved := true
        shotgunMenuCreated := true
        errorParts := [] } :=
  refresh_same_context 9 4 envSameCtx rfl (by decide) rfl

/-- C8 (code bug): when `process_events` runs while the application
reports it is closing down, the pump does not re-arm and later idle
ticks never run it again — but the class attribute
`PySideAppClarisseHelper._helper` still references the helper, because
line 39 executes `self._helper = None`, writing an instance attribute
instead of clearing the class-held singleton reference; when the
application is not closing down, exactly one re-arm is scheduled
whether or not any window is visible. -/
theorem pump_shutdown_keeps_class_singleton :
    (process_events pumpShutdownInput).classHelper = true
    ∧ (process_events pumpShutdownInput).instanceHelper = some none
    ∧ (process_events pumpShutdownInput).scheduled = 0
    ∧ (∀ k, idleTicks (process_events pumpShutdownInput) k
        = process_events pumpShutdownInput)
    ∧ (process_events { pumpShutdownInput with closingDown := false }).scheduled
        = 1
    ∧ (process_events
        { pumpShutdownInput with closingDown := false, windowsVisible := true
        }).scheduled = 1 := by
  refine ⟨rfl, rfl, rfl, fun k => idleTicks_stuck k _ rfl, rfl, rfl⟩

/-- C9 (code bug): on the claim's configuration the lookup table is
built correctly, but the first dispatch evaluates
`clarisse.utils.executeDeferred`, whose base name `clarisse` is bound
nowhere in engine.py, so `_run_app_instance_commands` raises `NameError`
with no command deferred and no warning logged; a `run_at_startup`
entry naming an unknown app instance or an unknown command, on its own,
only logs a warning and is skipped. -/
theorem startup_dispatch_name_error :
    buildAppInstanceCommands claimCommands
        = [("A", ["cmd1", "cmd2"]), ("B", ["cmd3"])]
    ∧ runAppInstanceCommands claimCommands claimStartup
        = Except.error { deferred := [], warnings := 0 }
    ∧ runAppInstanceCommands claimCommands [("C", "x")]
        = Except.ok { deferred := [], warnings := 1 }
    ∧ runAppInstanceCommands claimCommands [("B", "nope")]
        = Except.ok { deferred := [], warnings := 1 } :=
  ⟨rfl, rfl, rfl, rfl⟩

end TkClarisse
